import Mathlib

/-!
Verification of the merc document-extraction service.

Shallow embedding of:
  - src/routes/upload.ts   (ingestion orchestrator: batch poll loop, per-file checks)
  - src/lib/vectorStore.ts (waitForVectorStoreReady poller)
  - src/routes/ask.ts      (extraction requestor: JSON parse and normalization)
  - src/routes/exportExcel.ts (sheet naming, row normalization, placeholder)

JavaScript values coming out of JSON.parse are modelled by `Json` below.
"undefined" (the result of a property access that finds nothing) is modelled
as `Option Json` with `none` = undefined; it never occurs as a stored value,
since JSON.parse cannot produce it.
-/

namespace Merc

/-- A parsed JSON value (the possible results of JSON.parse). Numbers are
modelled as integers, which covers every concrete value used in this
development. -/
inductive Json where
  | null
  | bool (b : Bool)
  | num (n : Int)
  | str (s : String)
  | arr (xs : List Json)
  | obj (kvs : List (String × Json))

/-- JavaScript String(v) coercion, as applied by the normalization code to
JSON values: null prints as "null", arrays join their elements with ","
(null elements becoming empty), plain objects print as "[object Object]". -/
def jsToString : Json → String
  | .null => "null"
  | .bool b => cond b "true" "false"
  | .num n => toString n
  | .str s => s
  | .arr xs => String.intercalate "," (jsArrStrings xs)
  | .obj _ => "[object Object]"
where
  /-- Array.prototype.toString maps null/undefined elements to "". -/
  jsArrStrings : List Json → List String
  | [] => []
  | .null :: xs => "" :: jsArrStrings xs
  | x :: xs => jsToString x :: jsArrStrings xs

/-- Optional-chained property access `v?.k` (and `v?.[k]`): yields undefined
(`none`) when the receiver is null or has no such property; only objects carry
properties that a JSON value can observe here. -/
def jsGet? (v : Json) (k : String) : Option Json :=
  match v with
  | .obj kvs => kvs.lookup k
  | _ => none

/-- Plain property access `v.k`: throws a TypeError when the receiver is null
(the only receiver the ask handler can crash on), otherwise behaves like
`jsGet?`. The error string stands for the engine TypeError message. -/
def jsGet (v : Json) (k : String) : Except String (Option Json) :=
  match v with
  | .null => .error ("Cannot read properties of null (reading " ++ k ++ ")")
  | w => .ok (jsGet? w k)

/-- `String(x ?? "")`: null/undefined collapse to the empty string, anything
else goes through String(). Used for cell values and content fields. -/
def coalesceString (v : Option Json) : String :=
  match v with
  | none => ""
  | some .null => ""
  | some w => jsToString w

/-! ## ask.ts normalization (lines 94-148) -/

structure DocTextItem where
  order : Int
  content : String
deriving Repr, DecidableEq

structure NormTable where
  tableName : String
  columns : List String
  rows : List (List (String × String))
deriving Repr, DecidableEq

structure IdAnalysis where
  multipleTables : List Json
  singleLocation : List Json

structure AskData where
  documentText : List DocTextItem
  tables : List NormTable
  idAnalysis : IdAnalysis
  sourceFileId : String
  generatedAtISO : String

/-- ask.ts lines 97-100: one documentText item; `order` keeps a numeric order
field and otherwise defaults to index+1; content is `String(x?.content ?? "")`. -/
def normDocItem (i : Nat) (x : Json) : DocTextItem :=
  { order := match jsGet? x "order" with
      | some (.num n) => n
      | _ => (i : Int) + 1
    content := coalesceString (jsGet? x "content") }

/-- ask.ts lines 96-101: documentText is normalized elementwise when it is an
array, and silently becomes [] otherwise. -/
def normDocumentText (dtv : Option Json) : List DocTextItem :=
  match dtv with
  | some (.arr xs) => xs.enum.map (fun p => normDocItem p.1 p.2)
  | _ => []

/-- ask.ts lines 109-114: one row keeps exactly the declared columns, each
cell being `String(r?.[c] ?? "")`. -/
def normRowAsk (columns : List String) (r : Json) : List (String × String) :=
  columns.map (fun c => (c, coalesceString (jsGet? r c)))

/-- ask.ts lines 104-120: normalization of a single table object. -/
def normTable (t : Json) : NormTable :=
  let columns := match jsGet? t "columns" with
    | some (.arr xs) => xs.map jsToString
    | _ => []
  let rows := match jsGet? t "rows" with
    | some (.arr rs) => rs.map (normRowAsk columns)
    | _ => []
  { tableName := match jsGet? t "tableName" with
      | none => "Unnamed Table"
      | some .null => "Unnamed Table"
      | some v => jsToString v
    columns := columns
    rows := rows }

/-- ask.ts lines 103-121: tables normalized elementwise when an array, []
otherwise. -/
def normTables (tbv : Option Json) : List NormTable :=
  match tbv with
  | some (.arr ts) => ts.map normTable
  | _ => []

/-- ask.ts lines 123-134: idAnalysis keeps the two id lists when they are
arrays reachable through optional chains, [] otherwise. -/
def normIdAnalysis (parsed : Json) : IdAnalysis :=
  let field (k : String) : List Json :=
    match jsGet? parsed "idAnalysis" with
    | some ia =>
      match jsGet? ia k with
      | some (.arr xs) => xs
      | _ => []
    | none => []
  { multipleTables := field "ids_found_in_multiple_tables"
    singleLocation := field "ids_found_in_single_location" }

/-- ask.ts lines 94-148, the whole normalization step. `parsed.documentText`
and `parsed.tables` are plain (non-optional) accesses, so a null parse result
throws; everything downstream is optional-chained and total. -/
def askNormalize (fileId now : String) (parsed : Json) : Except String AskData := do
  let dtv ← jsGet parsed "documentText"
  let tbv ← jsGet parsed "tables"
  pure { documentText := normDocumentText dtv
         tables := normTables tbv
         idAnalysis := normIdAnalysis parsed
         sourceFileId := fileId
         generatedAtISO := now }

/-- JS String.prototype.slice(0, n) for nonnegative n, as used for the raw
output preview (ask.ts line 91). -/
def jsTake (s : String) (n : Nat) : String :=
  String.mk (s.data.take n)

/-- The HTTP response of GET /ask/:fileId, with the fields any branch of the
handler can set, plus the number of completion-service requests the handler
issued. -/
structure AskResponse where
  status : Nat
  ok : Bool
  error : Option String
  preview : Option String
  data : Option AskData
  fileId : Option String
  serviceCalls : Nat

/-- The ask handler (ask.ts lines 12-156), abstracted over JSON.parse
(`parse`) and the completion service (`svc n` = the output_text of the n-th
request the handler would make; the code contains a single such request,
executed once, so only `svc 0` is consumed and `serviceCalls` records how
many requests were issued on the taken path). -/
def askHandle (parse : String → Option Json) (svc : Nat → String)
    (fileId now : String) : AskResponse :=
  if "file-".data.isPrefixOf fileId.data then
    let rawText := svc 0
    match parse rawText with
    | none =>
      { status := 500, ok := false
        error := some "Model did not return valid JSON."
        preview := some (jsTake rawText 1200)
        data := none, fileId := none, serviceCalls := 1 }
    | some parsed =>
      match askNormalize fileId now parsed with
      | .error msg =>
        { status := 500, ok := false, error := some msg
          preview := none, data := none, fileId := none, serviceCalls := 1 }
      | .ok d =>
        { status := 200, ok := true, error := none, preview := none
          data := some d, fileId := some fileId, serviceCalls := 1 }
  else
    { status := 400, ok := false
      error := some "Invalid fileId. Expected a path param like /ask/file-..."
      preview := none, data := none, fileId := none, serviceCalls := 0 }

/-! ## upload.ts: batch poll loop and per-file checks (lines 91-153) -/

/-- One file entry from `openai.vectorStores.files.list` (upload.ts line 111):
id, status, and the optional last_error detail. -/
structure VSFileEntry where
  id : String
  status : String
  last_error : Option String
deriving Repr, DecidableEq

/-- Outcome of the batch poll loop of upload.ts lines 91-108, when it
produces one within the allotted number of iterations. `fetchCount` is the
number of status fetches performed and `sleepCount` the number of 1500 ms
sleeps performed before the outcome. -/
inductive BatchOutcome where
  | completed (fetchCount sleepCount : Nat)
  | failed (lastStatus : String) (fetchCount sleepCount : Nat)
deriving Repr, DecidableEq

/-- upload.ts lines 91-108: `while (true) { b = retrieveBatch(); if completed
break; if failed return 500; sleep(1500) }`, abstracted over the status
source (`fetch n` = status observed by the (n+1)-th retrieveBatch call).
The loop in the source has NO timeout check, so with a never-terminal status
source it loops forever; `fuel` bounds how many iterations we unroll, and
`none` means the loop was still running after `fuel` iterations. -/
def pollBatchAux (fetch : Nat → String) : Nat → Nat → Option BatchOutcome
  | _, 0 => none
  | n, fuel + 1 =>
    let s := fetch n
    if s = "completed" then some (.completed (n + 1) n)
    else if s = "failed" then some (.failed s (n + 1) n)
    else pollBatchAux fetch (n + 1) fuel

/-- The batch poll loop started at its first iteration. -/
def pollBatch (fetch : Nat → String) (fuel : Nat) : Option BatchOutcome :=
  pollBatchAux fetch 0 fuel

/-- The JSON body (plus HTTP status) of the upload handler responses, with
every field any branch of upload.ts lines 91-153 can set. -/
structure UploadResp where
  status : Nat
  ok : Bool
  error : Option String
  fileId : Option String
  vectorStoreId : Option String
  batchId : Option String
  batchStatus : Option String
  files : Option (List (String × String))
  vectorStoreFile : Option (String × String × Option String)
  indexedFiles : Option (List (String × String))
  note : Option String
deriving Repr, DecidableEq

/-- upload.ts lines 110-153: after the batch loop broke out with status
completed, list the vector-store files, look up the submitted file id, and
answer with the missing-entry inconsistency, the per-file failure, or
success. -/
def uploadAfterBatch (fileId vectorStoreId batchId : String)
    (filesInStore : List VSFileEntry) : UploadResp :=
  match filesInStore.find? (fun x => x.id = fileId) with
  | none =>
    { status := 500, ok := false
      error := some "File not found in vector store after batch completed"
      fileId := some fileId, vectorStoreId := some vectorStoreId
      batchId := some batchId, batchStatus := none
      files := some (filesInStore.map (fun x => (x.id, x.status)))
      vectorStoreFile := none, indexedFiles := none, note := none }
  | some entry =>
    if entry.status = "failed" then
      { status := 500, ok := false
        error := some "Vector store indexing failed for this file"
        fileId := some fileId, vectorStoreId := some vectorStoreId
        batchId := some batchId, batchStatus := none, files := none
        vectorStoreFile := some (entry.id, entry.status, entry.last_error)
        indexedFiles := none, note := none }
    else
      { status := 200, ok := true, error := none
        fileId := some fileId, vectorStoreId := some vectorStoreId
        batchId := some batchId, batchStatus := none, files := none
        vectorStoreFile := none
        indexedFiles := some (filesInStore.map (fun x => (x.id, x.status)))
        note := some "File uploaded and indexed successfully" }

/-- upload.ts lines 91-153: the poll loop followed by the per-file checks.
`none` means the handler has produced no response yet after `fuel` loop
iterations (the unbounded loop is still polling). -/
def uploadPollAndCheck (fetch : Nat → String) (fuel : Nat)
    (fileId vectorStoreId batchId : String)
    (filesInStore : List VSFileEntry) : Option UploadResp :=
  match pollBatch fetch fuel with
  | none => none
  | some (.failed s _ _) =>
    some { status := 500, ok := false
           error := some "File batch failed during vector store processing"
           fileId := some fileId, vectorStoreId := some vectorStoreId
           batchId := some batchId, batchStatus := some s, files := none
           vectorStoreFile := none, indexedFiles := none, note := none }
  | some (.completed _ _) =>
    some (uploadAfterBatch fileId vectorStoreId batchId filesInStore)

/-! ## vectorStore.ts: waitForVectorStoreReady (lines 5-24) -/

/-- Result of the vector-store readiness poller: either the store fetched at
poll `n` was "completed", or the poller threw the timeout error carrying the
last observed status. -/
inductive VSWaitResult where
  | ready (pollIdx : Nat)
  | timeout (lastStatus : String)
deriving Repr, DecidableEq

/-- vectorStore.ts lines 11-23, with time made explicit: the n-th retrieve
happens after n sleeps of 1500 ms, so `Date.now() - start` at iteration n is
`1500 * n`. The source checks "completed" first, then the elapsed-time
timeout, then sleeps and retries; this loop is provably bounded. -/
def waitVSAux (fetch : Nat → String) (timeoutMs : Nat) (n : Nat) : VSWaitResult :=
  if fetch n = "completed" then .ready n
  else if 1500 * n > timeoutMs then .timeout (fetch n)
  else waitVSAux fetch timeoutMs (n + 1)
termination_by timeoutMs / 1500 + 1 - n
decreasing_by
  rename_i _h1 h2
  have hn : n * 1500 ≤ timeoutMs := by omega
  have : n ≤ timeoutMs / 1500 := (Nat.le_div_iff_mul_le (by norm_num)).mpr hn
  omega

/-- vectorStore.ts lines 5-24: the poller from its first fetch, with the
source's default timeout of 120000 ms available at call sites. -/
def waitForVectorStoreReady (fetch : Nat → String) (timeoutMs : Nat) : VSWaitResult :=
  waitVSAux fetch timeoutMs 0

/-! ## exportExcel.ts: sheet naming, row normalization, workbook assembly -/

/-- The characters Excel forbids in sheet names, from the regex
`/[:\\/?*\[\]]/g` of exportExcel.ts line 28. -/
def excelDisallowed (c : Char) : Bool :=
  c = ':' || c = '\\' || c = '/' || c = '?' || c = '*' || c = '[' || c = ']'

/-- The whitespace class of the JS regex `\s` and of String.prototype.trim,
restricted to the ASCII range (the unicode space characters are irrelevant to
every value this development evaluates). -/
def jsWhitespace (c : Char) : Bool :=
  c = ' ' || c = '\t' || c = '\n' || c = '\r' || c = '\x0b' || c = '\x0c'

/-- `replace(/\s+/g, " ")`: each maximal whitespace run becomes one space.
The flag records whether the previous character was part of a run. -/
def collapseWsAux (prevWs : Bool) : List Char → List Char
  | [] => []
  | c :: rest =>
    if jsWhitespace c then
      if prevWs then collapseWsAux true rest
      else ' ' :: collapseWsAux true rest
    else c :: collapseWsAux false rest

def collapseWs (l : List Char) : List Char := collapseWsAux false l

/-- String.prototype.trim: drop whitespace from both ends. -/
def trimChars (l : List Char) : List Char :=
  ((l.dropWhile jsWhitespace).reverse.dropWhile jsWhitespace).reverse

/-- JS `slice(0, e)` on a string, including the negative-end convention
(`e < 0` counts from the end). -/
def jsSliceTo (l : List Char) (e : Int) : List Char :=
  let n : Int := l.length
  let stop : Int := if e < 0 then max (n + e) 0 else min e n
  l.take stop.toNat

/-- exportExcel.ts lines 23-34 (safeSheetName): `String(name || fallback)`,
replace disallowed characters by spaces, collapse whitespace, trim, truncate
to 31, and fall back when the result is empty. -/
def safeSheetName (name fallback : String) : String :=
  let base := if name = "" then fallback else name
  let cleaned := String.mk
    ((trimChars (collapseWs (base.data.map
        (fun c => if excelDisallowed c then ' ' else c)))).take 31)
  if cleaned.length = 0 then fallback else cleaned

/-- The candidate tried by uniqueSheetName for suffix index `i`
(exportExcel.ts lines 41-42): `(base.slice(0, 31 - suffix.length) + suffix).trim()`
with `suffix = " " + i`. -/
def uniqueCandidate (base : String) (i : Nat) : String :=
  let suffix := " " ++ toString i
  String.mk (trimChars (jsSliceTo base.data (31 - (suffix.length : Int)) ++ suffix.data))

/-- exportExcel.ts lines 36-47 (uniqueSheetName): while the current name is
taken, try the candidate with the next suffix index. The `used` Set is a list
of already-assigned names; `fuel` bounds the number of loop iterations we
unroll, `none` meaning the loop had not exited by then. -/
def uniqueLoop (base : String) (used : List String) : String → Nat → Nat → Option String
  | name, _, 0 => if used.contains name then none else some name
  | name, i, fuel + 1 =>
    if used.contains name then uniqueLoop base used (uniqueCandidate base i) (i + 1) fuel
    else some name

def uniqueSheetName (base : String) (used : List String) (fuel : Nat) : Option String :=
  uniqueLoop base used base 2 fuel

/-- exportExcel.ts lines 49-58 (normalizeRows): every input row becomes a row
holding exactly the declared columns, a missing or null cell becoming "" and
any other value its String() coercion. -/
def normalizeRows (columns : List String) (rows : List Json) :
    List (List (String × String)) :=
  rows.map (fun r => columns.map (fun c =>
    (c, match jsGet? r c with
        | none => ""
        | some .null => ""
        | some v => jsToString v)))

/-- Object.keys(r ?? {}) for a JSON value: property names of objects, index
strings of arrays and strings, nothing for other primitives (null is absorbed
by `?? {}`). -/
def jsKeys : Json → List String
  | .obj kvs => kvs.map Prod.fst
  | .arr xs => (List.range xs.length).map toString
  | .str s => (List.range s.length).map toString
  | _ => []

/-- First-seen-order deduplication, as `Array.from(new Set(...))` produces. -/
def firstSeenAux (seen : List String) : List String → List String
  | [] => []
  | k :: rest =>
    if seen.contains k then firstSeenAux seen rest
    else k :: firstSeenAux (k :: seen) rest

def firstSeen (l : List String) : List String := firstSeenAux [] l

/-- exportExcel.ts lines 160: the declared columns of a table object. -/
def tableColumns (t : Json) : List String :=
  match jsGet? t "columns" with
  | some (.arr xs) => xs.map jsToString
  | _ => []

/-- exportExcel.ts line 161: the raw rows of a table object. -/
def tableRows (t : Json) : List Json :=
  match jsGet? t "rows" with
  | some (.arr rs) => rs
  | _ => []

/-- One worksheet, reduced to the data the claims are about: its name, its
header row, and its data rows in order (styling is presentational only). -/
structure Sheet where
  name : String
  header : List String
  rows : List (List String)
deriving Repr, DecidableEq

/-- exportExcel.ts lines 154-197, the body of `tables.forEach`: pick the
table name (only a string-typed tableName overrides the positional default),
derive the sheet name, derive columns (declared, else union of row keys in
first-seen order), and emit either the one-row placeholder sheet or the
normalized data sheet. Returns the sheet and the grown `used` set, or `none`
when uniqueSheetName ran out of fuel. -/
def buildSheet (t : Json) (idx : Nat) (used : List String) (fuel : Nat) :
    Option (Sheet × List String) :=
  let tableName := match jsGet? t "tableName" with
    | some (.str s) => s
    | _ => "Table " ++ toString (idx + 1)
  let baseName := safeSheetName tableName ("Table " ++ toString (idx + 1))
  match uniqueSheetName baseName used fuel with
  | none => none
  | some sheetName =>
    let columns := tableColumns t
    let rows := tableRows t
    let finalColumns :=
      if columns.length > 0 then columns
      else firstSeen (rows.flatMap jsKeys)
    if finalColumns.length = 0 then
      some ({ name := sheetName, header := ["message"]
              rows := [["Table had no columns/rows."]] }, sheetName :: used)
    else
      some ({ name := sheetName, header := finalColumns
              rows := (normalizeRows finalColumns rows).map (fun row => row.map Prod.snd) },
            sheetName :: used)

/-- exportExcel.ts lines 152-197: fold buildSheet over the tables in input
order, threading the used-name set. -/
def buildWorkbookAux (fuel : Nat) : List Json → Nat → List String → Option (List Sheet)
  | [], _, _ => some []
  | t :: ts, idx, used =>
    match buildSheet t idx used fuel with
    | none => none
    | some (s, used2) =>
      match buildWorkbookAux fuel ts (idx + 1) used2 with
      | none => none
      | some ss => some (s :: ss)

def buildWorkbook (tables : List Json) (fuel : Nat) : Option (List Sheet) :=
  buildWorkbookAux fuel tables 0 []

/-! ## Helper lemmas -/

/-- A status source that never reaches a terminal batch value keeps the
upload batch poll loop running forever: no response is produced after any
number of iterations. -/
theorem pollBatchAux_none (fetch : Nat → String)
    (h : ∀ m, fetch m ≠ "completed" ∧ fetch m ≠ "failed") :
    ∀ fuel n, pollBatchAux fetch n fuel = none := by
  intro fuel
  induction fuel with
  | zero => intro n; rfl
  | succ fuel ih =>
    intro n
    simp only [pollBatchAux]
    rw [if_neg (h n).1, if_neg (h n).2]
    exact ih (n + 1)

/-- When the store status never reads "completed", the readiness poller exits
with the timeout error at the first poll whose elapsed time `1500 * n`
exceeds the timeout, carrying the status observed at that poll. -/
theorem waitVSAux_timeout (fetch : Nat → String) (t : Nat)
    (h : ∀ m, fetch m ≠ "completed") :
    ∀ k n, t / 1500 + 1 - n = k → n ≤ t / 1500 + 1 →
      waitVSAux fetch t n = .timeout (fetch (t / 1500 + 1)) := by
  intro k
  induction k with
  | zero =>
    intro n hk hn
    have hn2 : n = t / 1500 + 1 := by omega
    subst hn2
    rw [waitVSAux, if_neg (h _)]
    have hgt : 1500 * (t / 1500 + 1) > t := by
      have h1 := Nat.div_add_mod t 1500
      have h2 := Nat.mod_lt t (show 0 < 1500 by norm_num)
      omega
    rw [if_pos hgt]
  | succ k ih =>
    intro n hk hn
    have hlt : n ≤ t / 1500 := by omega
    have hng : ¬ (1500 * n > t) := by
      have h3 : t / 1500 * 1500 ≤ t := Nat.div_mul_le_self t 1500
      have h4 : n * 1500 ≤ t / 1500 * 1500 := Nat.mul_le_mul_right 1500 hlt
      omega
    rw [waitVSAux, if_neg (h _), if_neg hng]
    exact ih (n + 1) (by omega) (by omega)

/-- For non-null receivers a plain property access does not throw and agrees
with the optional-chained access. -/
theorem jsGet_of_ne_null (v : Json) (k : String) (hv : v ≠ Json.null) :
    jsGet v k = .ok (jsGet? v k) := by
  cases v with
  | null => exact absurd rfl hv
  | bool b => rfl
  | num n => rfl
  | str s => rfl
  | arr xs => rfl
  | obj kvs => rfl

/-- askNormalize succeeds on every non-null parsed value, producing the
fieldwise normalizations. -/
theorem askNormalize_ok (fileId now : String) (v : Json) (hv : v ≠ Json.null) :
    askNormalize fileId now v
      = .ok { documentText := normDocumentText (jsGet? v "documentText")
              tables := normTables (jsGet? v "tables")
              idAnalysis := normIdAnalysis v
              sourceFileId := fileId, generatedAtISO := now } := by
  cases v with
  | null => exact absurd rfl hv
  | bool b => rfl
  | num n => rfl
  | str s => rfl
  | arr xs => rfl
  | obj kvs => rfl

/-! ## Claim theorems -/

/-- C1 (counterexample): the claim says the upload orchestrator's
indexing-job status loop fails with a Timeout error once elapsed time exceeds
the configured timeout. The loop of upload.ts lines 91-108 has no timeout
check: with a status source stuck at "in_progress", after 201 fetches (200
sleeps of 1500 ms, i.e. 300000 ms elapsed, far beyond the 120000 ms timeout
the repository configures for its other poller) the loop has produced no
response at all — in particular no Timeout failure. -/
theorem upload_poll_unbounded_cx :
    pollBatch (fun _ => "in_progress") 201 = none
    ∧ uploadPollAndCheck (fun _ => "in_progress") 201 "f" "vs" "b" [] = none
    ∧ 1500 * 200 > 120000 := by
  have h : pollBatch (fun _ => "in_progress") 201 = none :=
    pollBatchAux_none _
      (fun _ => ⟨show ("in_progress" : String) ≠ "completed" by decide,
                 show ("in_progress" : String) ≠ "failed" by decide⟩) 201 0
  refine ⟨h, ?_, by norm_num⟩
  unfold uploadPollAndCheck
  rw [h]

/-- C1 (amended): the vector-store readiness poller (waitForVectorStoreReady)
is bounded — with a status source that never reads "completed" it fails with
the Timeout error exactly at the first poll whose elapsed time `1500 * n`
exceeds the timeout, carrying the status observed at that poll — while the
upload orchestrator's batch status loop has no timeout and yields no
response after any number of iterations when the status never reaches a
terminal value. -/
theorem poller_timeout_bounds (vsFetch bFetch : Nat → String) (t fuel : Nat)
    (hvs : ∀ n, vsFetch n ≠ "completed")
    (hb : ∀ n, bFetch n ≠ "completed" ∧ bFetch n ≠ "failed") :
    waitForVectorStoreReady vsFetch t = .timeout (vsFetch (t / 1500 + 1))
    ∧ 1500 * (t / 1500 + 1) > t
    ∧ 1500 * (t / 1500) ≤ t
    ∧ pollBatch bFetch fuel = none := by
  refine ⟨waitVSAux_timeout vsFetch t hvs _ 0 rfl (by omega), ?_, ?_, ?_⟩
  · have h1 := Nat.div_add_mod t 1500
    have h2 := Nat.mod_lt t (show 0 < 1500 by norm_num)
    omega
  · have h3 := Nat.div_mul_le_self t 1500
    omega
  · exact pollBatchAux_none bFetch hb fuel 0

theorem poller_timeout_bounds_witness :
    waitForVectorStoreReady (fun _ => "in_progress") 120000 = .timeout "in_progress"
    ∧ pollBatch (fun _ => "queued") 300 = none :=
  have h := poller_timeout_bounds (fun _ => "in_progress") (fun _ => "queued") 120000 300
    (fun _ => show ("in_progress" : String) ≠ "completed" by decide)
    (fun _ => ⟨show ("queued" : String) ≠ "completed" by decide,
               show ("queued" : String) ≠ "failed" by decide⟩)
  ⟨h.1, h.2.2.2⟩

/-- C4: when the very first batch status fetch reads the terminal failure
value "failed", the poll loop exits with the failure outcome after exactly
one fetch and zero sleeps, and the upload handler answers ok:false / 500
with the batch-failure error, independently of the vector-store file list. -/
theorem first_poll_failed_immediate (fetch : Nat → String) (fuel : Nat)
    (fileId vsId batchId : String) (files : List VSFileEntry)
    (h0 : fetch 0 = "failed") (hfuel : 1 ≤ fuel) :
    pollBatch fetch fuel = some (.failed "failed" 1 0)
    ∧ uploadPollAndCheck fetch fuel fileId vsId batchId files
        = some { status := 500, ok := false
                 error := some "File batch failed during vector store processing"
                 fileId := some fileId, vectorStoreId := some vsId
                 batchId := some batchId, batchStatus := some "failed"
                 files := none, vectorStoreFile := none
                 indexedFiles := none, note := none } := by
  obtain ⟨f, rfl⟩ : ∃ f, fuel = f + 1 := ⟨fuel - 1, by omega⟩
  have hpoll : pollBatch fetch (f + 1) = some (.failed "failed" 1 0) := by
    simp [pollBatch, pollBatchAux, h0]
  exact ⟨hpoll, by simp only [uploadPollAndCheck, hpoll]⟩

theorem first_poll_failed_immediate_witness :
    pollBatch (fun _ => "failed") 5 = some (.failed "failed" 1 0)
    ∧ uploadPollAndCheck (fun _ => "failed") 5 "f1" "vs1" "b1"
        [⟨"f1", "completed", none⟩]
        = some { status := 500, ok := false
                 error := some "File batch failed during vector store processing"
                 fileId := some "f1", vectorStoreId := some "vs1"
                 batchId := some "b1", batchStatus := some "failed"
                 files := none, vectorStoreFile := none
                 indexedFiles := none, note := none } :=
  first_poll_failed_immediate (fun _ => "failed") 5 "f1" "vs1" "b1"
    [⟨"f1", "completed", none⟩] rfl (by norm_num)

/-- C2: when the batch poll loop exits with status completed but the
vector-store file entry found for the submitted file id has status "failed",
the upload handler answers ok:false / 500 with the per-file failure error,
carrying the entry's last_error detail verbatim — never the success
response. -/
theorem job_completed_per_file_failed (fetch : Nat → String)
    (fuel fc sc : Nat) (fileId vsId batchId : String)
    (files : List VSFileEntry) (e : VSFileEntry)
    (hpoll : pollBatch fetch fuel = some (.completed fc sc))
    (hfind : files.find? (fun x => x.id = fileId) = some e)
    (hfail : e.status = "failed") :
    uploadPollAndCheck fetch fuel fileId vsId batchId files
      = some { status := 500, ok := false
               error := some "Vector store indexing failed for this file"
               fileId := some fileId, vectorStoreId := some vsId
               batchId := some batchId, batchStatus := none, files := none
               vectorStoreFile := some (e.id, e.status, e.last_error)
               indexedFiles := none, note := none } := by
  simp only [uploadPollAndCheck, hpoll, uploadAfterBatch, hfind]
  rw [if_pos hfail]

theorem job_completed_per_file_failed_witness :
    uploadPollAndCheck (fun _ => "completed") 1 "f1" "vs1" "b1"
        [⟨"f1", "failed", some "invalid_file"⟩]
      = some { status := 500, ok := false
               error := some "Vector store indexing failed for this file"
               fileId := some "f1", vectorStoreId := some "vs1"
               batchId := some "b1", batchStatus := none, files := none
               vectorStoreFile := some ("f1", "failed", some "invalid_file")
               indexedFiles := none, note := none } :=
  job_completed_per_file_failed (fun _ => "completed") 1 1 0 "f1" "vs1" "b1"
    [⟨"f1", "failed", some "invalid_file"⟩] ⟨"f1", "failed", some "invalid_file"⟩
    rfl rfl rfl

/-- C3: when the batch poll loop exits with status completed but no
vector-store file entry matches the submitted file id, the upload handler
answers ok:false / 500 with the dedicated missing-entry inconsistency error
and the observed per-file (id, status) list as context — an error distinct
from the batch-failure and per-file-failure errors, and not success. -/
theorem job_completed_missing_entry (fetch : Nat → String)
    (fuel fc sc : Nat) (fileId vsId batchId : String)
    (files : List VSFileEntry)
    (hpoll : pollBatch fetch fuel = some (.completed fc sc))
    (hfind : files.find? (fun x => x.id = fileId) = none) :
    uploadPollAndCheck fetch fuel fileId vsId batchId files
      = some { status := 500, ok := false
               error := some "File not found in vector store after batch completed"
               fileId := some fileId, vectorStoreId := some vsId
               batchId := some batchId, batchStatus := none
               files := some (files.map (fun x => (x.id, x.status)))
               vectorStoreFile := none, indexedFiles := none, note := none }
    ∧ ("File not found in vector store after batch completed"
        ≠ "File batch failed during vector store processing"
      ∧ "File not found in vector store after batch completed"
        ≠ "Vector store indexing failed for this file") := by
  refine ⟨?_, by decide, by decide⟩
  simp only [uploadPollAndCheck, hpoll, uploadAfterBatch, hfind]

theorem job_completed_missing_entry_witness :
    uploadPollAndCheck (fun _ => "completed") 1 "f1" "vs1" "b1"
        [⟨"other", "completed", none⟩]
      = some { status := 500, ok := false
               error := some "File not found in vector store after batch completed"
               fileId := some "f1", vectorStoreId := some "vs1"
               batchId := some "b1", batchStatus := none
               files := some [("other", "completed")]
               vectorStoreFile := none, indexedFiles := none, note := none } :=
  (job_completed_missing_entry (fun _ => "completed") 1 1 0 "f1" "vs1" "b1"
    [⟨"other", "completed", none⟩] rfl rfl).1

/-- C5 (counterexample): the claim says a table without a tableName gets the
positional default "Table 1", "Table 2", ... in encounter order. The
normalization of ask.ts line 116 instead gives every such table the constant
name "Unnamed Table": two nameless tables both come out as "Unnamed Table",
which differs from both "Table 1" and "Table 2". -/
theorem unnamed_table_not_positional_cx :
    (normTables (some (Json.arr
        [Json.obj [("columns", Json.arr [Json.str "c"])],
         Json.obj [("columns", Json.arr [Json.str "c"])]]))).map NormTable.tableName
      = ["Unnamed Table", "Unnamed Table"]
    ∧ ("Unnamed Table" : String) ≠ "Table 1"
    ∧ ("Unnamed Table" : String) ≠ "Table 2" :=
  ⟨rfl, by decide, by decide⟩

/-- C5 (amended): in the normalization of the parsed model output, every
table whose tableName is absent (missing or null) is assigned the fixed
default name "Unnamed Table", independent of its position. -/
theorem unnamed_table_default_name (t : Json)
    (h : jsGet? t "tableName" = none ∨ jsGet? t "tableName" = some Json.null) :
    (normTable t).tableName = "Unnamed Table" := by
  unfold normTable
  rcases h with h | h <;> simp [h]

theorem unnamed_table_default_name_witness :
    (normTable (Json.obj [])).tableName = "Unnamed Table" :=
  unnamed_table_default_name (Json.obj []) (Or.inl rfl)

/-- C6: row normalization never drops a row, every output row carries exactly
the declared columns as keys (in particular no key outside the declared
columns ever appears), the ask-route row normalization and the export-route
normalizeRows agree, and on columns ["id","note"] with row {id: 5} the
output is {id: "5", note: ""}. -/
theorem row_normalization_exact (columns : List String) (rows : List Json)
    (r : Json) (k : String) (hk : k ∉ columns) :
    (normalizeRows columns rows).length = rows.length
    ∧ (∀ out ∈ normalizeRows columns rows, out.map Prod.fst = columns)
    ∧ (∀ v, (k, v) ∉ normRowAsk columns r)
    ∧ normalizeRows columns [r] = [normRowAsk columns r]
    ∧ normRowAsk ["id", "note"] (Json.obj [("id", Json.num 5)])
        = [("id", "5"), ("note", "")] := by
  refine ⟨by simp [normalizeRows], ?_, ?_, rfl, rfl⟩
  · intro out hout
    simp only [normalizeRows, List.mem_map] at hout
    obtain ⟨r2, _, rfl⟩ := hout
    rw [List.map_map]
    show List.map id columns = columns
    exact List.map_id columns
  · intro v hv
    simp only [normRowAsk, List.mem_map] at hv
    obtain ⟨c, hc, hcv⟩ := hv
    have h1 : c = k := congrArg Prod.fst hcv
    exact hk (h1 ▸ hc)

theorem row_normalization_exact_witness :
    (normalizeRows ["id", "note"] [Json.obj [("id", Json.num 5)]]).length = 1
    ∧ normRowAsk ["id", "note"] (Json.obj [("id", Json.num 5)])
        = [("id", "5"), ("note", "")] :=
  have h := row_normalization_exact ["id", "note"] [Json.obj [("id", Json.num 5)]]
    (Json.obj [("id", Json.num 5)]) "extra" (by decide)
  ⟨h.1, h.2.2.2.2⟩

/-- C7: sheet-name derivation is deterministic. For input table names
["A:B", "A:B", ""] the three sheets are named "A B" (disallowed ":" replaced,
whitespace collapsed), "A B 2" (collision resolved by the " 2" suffix) and
"Table 3" (positional default for the empty name); the three names are
pairwise distinct and each fits in 31 characters. A second run on a 31-char
name colliding with itself shows the re-truncation: the suffixed name is
truncated back to exactly 31 characters and still differs from the name used
so far. -/
theorem sheet_naming_deterministic :
    (buildWorkbook
        [Json.obj [("tableName", Json.str "A:B")],
         Json.obj [("tableName", Json.str "A:B")],
         Json.obj [("tableName", Json.str "")]] 10).map (fun ss => ss.map Sheet.name)
      = some ["A B", "A B 2", "Table 3"]
    ∧ (["A B", "A B 2", "Table 3"] : List String).Nodup
    ∧ ("A B" : String).length ≤ 31 ∧ ("A B 2" : String).length ≤ 31
    ∧ ("Table 3" : String).length ≤ 31
    ∧ (buildWorkbook
        [Json.obj [("tableName", Json.str "ABCDEFGHIJKLMNOPQRSTUVWXYZ01234")],
         Json.obj [("tableName", Json.str "ABCDEFGHIJKLMNOPQRSTUVWXYZ01234")]] 10).map
        (fun ss => ss.map Sheet.name)
      = some ["ABCDEFGHIJKLMNOPQRSTUVWXYZ01234", "ABCDEFGHIJKLMNOPQRSTUVWXYZ012 2"]
    ∧ ("ABCDEFGHIJKLMNOPQRSTUVWXYZ012 2" : String).length = 31
    ∧ ("ABCDEFGHIJKLMNOPQRSTUVWXYZ01234" : String)
        ≠ "ABCDEFGHIJKLMNOPQRSTUVWXYZ012 2" := by
  exact ⟨rfl, by decide, by decide, by decide, by decide, rfl, by decide, by decide⟩

/-- C8: a table with zero declared columns and zero rows (so no columns can
be derived from row keys) still yields a sheet, whose content is exactly one
informational placeholder row. -/
theorem empty_table_placeholder (t : Json) (idx : Nat) (used : List String)
    (fuel : Nat) (s : Sheet) (used2 : List String)
    (hc : tableColumns t = []) (hr : tableRows t = [])
    (hbuild : buildSheet t idx used fuel = some (s, used2)) :
    s.header = ["message"]
    ∧ s.rows = [["Table had no columns/rows."]]
    ∧ s.rows.length = 1 := by
  unfold buildSheet at hbuild
  rw [hc, hr] at hbuild
  dsimp only at hbuild
  cases huniq : uniqueSheetName
      (safeSheetName
        (match jsGet? t "tableName" with
          | some (.str s) => s
          | _ => "Table " ++ toString (idx + 1))
        ("Table " ++ toString (idx + 1))) used fuel with
  | none => rw [huniq] at hbuild; exact Option.noConfusion hbuild
  | some nm =>
    rw [huniq] at hbuild
    simp [firstSeen, firstSeenAux] at hbuild
    obtain ⟨rfl, -⟩ := hbuild
    exact ⟨rfl, rfl, rfl⟩

theorem empty_table_placeholder_witness :
    ({ name := "Table 1", header := ["message"],
       rows := [["Table had no columns/rows."]] } : Sheet).header = ["message"]
    ∧ ({ name := "Table 1", header := ["message"],
         rows := [["Table had no columns/rows."]] } : Sheet).rows
        = [["Table had no columns/rows."]]
    ∧ ({ name := "Table 1", header := ["message"],
         rows := [["Table had no columns/rows."]] } : Sheet).rows.length = 1 :=
  empty_table_placeholder (Json.obj []) 0 [] 1 _ ["Table 1"] rfl rfl rfl

/-- C9: when the model output text fails JSON parsing, the ask handler
answers exactly the terminal ok:false / 500 response carrying the raw output
truncated to 1200 characters; the preview is bounded by 1200, only one
completion request was issued, and the whole response depends only on that
single request's output (no repair, no second request). -/
theorem parse_failure_terminal (parse : String → Option Json) (svc : Nat → String)
    (fileId now : String)
    (hid : "file-".data.isPrefixOf fileId.data = true)
    (hp : parse (svc 0) = none) :
    askHandle parse svc fileId now
      = { status := 500, ok := false
          error := some "Model did not return valid JSON."
          preview := some (jsTake (svc 0) 1200)
          data := none, fileId := none, serviceCalls := 1 }
    ∧ (jsTake (svc 0) 1200).length ≤ 1200
    ∧ ∀ svc2 : Nat → String, svc2 0 = svc 0 →
        askHandle parse svc2 fileId now = askHandle parse svc fileId now := by
  refine ⟨?_, ?_, ?_⟩
  · simp only [askHandle, hid, if_true, hp]
  · show (String.mk ((svc 0).data.take 1200)).length ≤ 1200
    exact List.length_take_le 1200 (svc 0).data
  · intro svc2 h2
    simp only [askHandle, h2]

theorem parse_failure_terminal_witness :
    askHandle (fun _ => none) (fun _ => "here is the table you asked for: | a | b |")
        "file-1" "2024-01-01"
      = { status := 500, ok := false
          error := some "Model did not return valid JSON."
          preview := some (jsTake "here is the table you asked for: | a | b |" 1200)
          data := none, fileId := none, serviceCalls := 1 }
    ∧ (jsTake "here is the table you asked for: | a | b |" 1200).length ≤ 1200 :=
  have h := parse_failure_terminal (fun _ => none)
    (fun _ => "here is the table you asked for: | a | b |") "file-1" "2024-01-01"
    (by decide) rfl
  ⟨h.1, h.2.1⟩

/-- C10 (counterexample): the claim says every model output that parses as
valid JSON yields ok:true. The text "null" parses as the JSON value null,
and on it the handler crashes at the plain property access
`parsed.documentText` (ask.ts line 96); the catch-all turns that into an
ok:false / 500 response, not success. -/
theorem valid_json_null_failure_cx :
    (askHandle (fun _ => some Json.null) (fun _ => "null") "file-x" "t").ok = false
    ∧ (askHandle (fun _ => some Json.null) (fun _ => "null") "file-x" "t").status = 500
    ∧ (fun _ => some Json.null) "null" = some Json.null :=
  ⟨rfl, rfl, rfl⟩

/-- C10 (amended): for every model output text that parses as a JSON value
other than null, the ask handler returns success (ok:true, 200) regardless
of schema conformance: documentText, tables and the idAnalysis lists are
normalized from the parsed value, with a missing or non-array field becoming
an empty array, never an error. (For the output text "null" the handler
instead fails with 500, per the counterexample.) -/
theorem valid_json_nonnull_success (parse : String → Option Json)
    (svc : Nat → String) (fileId now : String) (v : Json)
    (hid : "file-".data.isPrefixOf fileId.data = true)
    (hp : parse (svc 0) = some v) (hv : v ≠ Json.null) :
    (askHandle parse svc fileId now).ok = true
    ∧ (askHandle parse svc fileId now).status = 200
    ∧ (askHandle parse svc fileId now).data
        = some { documentText := normDocumentText (jsGet? v "documentText")
                 tables := normTables (jsGet? v "tables")
                 idAnalysis := normIdAnalysis v
                 sourceFileId := fileId, generatedAtISO := now }
    ∧ ((∀ xs, jsGet? v "tables" ≠ some (Json.arr xs)) →
        normTables (jsGet? v "tables") = [])
    ∧ ((∀ xs, jsGet? v "documentText" ≠ some (Json.arr xs)) →
        normDocumentText (jsGet? v "documentText") = [])
    ∧ (jsGet? v "idAnalysis" = none →
        (normIdAnalysis v).multipleTables = []
          ∧ (normIdAnalysis v).singleLocation = []) := by
  have hnorm := askNormalize_ok fileId now v hv
  refine ⟨?_, ?_, ?_, ?_, ?_, ?_⟩
  · simp only [askHandle, hid, if_true, hp, hnorm]
  · simp only [askHandle, hid, if_true, hp, hnorm]
  · simp only [askHandle, hid, if_true, hp, hnorm]
  · intro hnot
    unfold normTables
    cases hg : jsGet? v "tables" with
    | none => rfl
    | some j => cases j with
      | arr xs => exact absurd hg (hnot xs)
      | null => rfl
      | bool b => rfl
      | num n => rfl
      | str s => rfl
      | obj kvs => rfl
  · intro hnot
    unfold normDocumentText
    cases hg : jsGet? v "documentText" with
    | none => rfl
    | some j => cases j with
      | arr xs => exact absurd hg (hnot xs)
      | null => rfl
      | bool b => rfl
      | num n => rfl
      | str s => rfl
      | obj kvs => rfl
  · intro hnone
    unfold normIdAnalysis
    rw [hnone]
    exact ⟨rfl, rfl⟩

theorem valid_json_nonnull_success_witness :
    (askHandle (fun _ => some (Json.obj [("unexpected", Json.num 1)]))
        (fun _ => "x") "file-1" "t").ok = true
    ∧ (askHandle (fun _ => some (Json.obj [("unexpected", Json.num 1)]))
        (fun _ => "x") "file-1" "t").status = 200 :=
  have h := valid_json_nonnull_success (fun _ => some (Json.obj [("unexpected", Json.num 1)]))
    (fun _ => "x") "file-1" "t" (Json.obj [("unexpected", Json.num 1)])
    (by decide) rfl (by simp)
  ⟨h.1, h.2.1⟩

end Merc
